import Mathlib

/-!
# Verification of `discord/public/discord_video_frame.cc`

A shallow embedding of the three classes of the translation unit:

* `DiscordVideoFormat`   (codec / profile configuration),
* `DiscordVideoFrame`    (the frame handle around a `::media::VideoFrame`),
* `RtcI420FrameWrapper`  (the planar view over a `webrtc::I420BufferInterface`).

Conventions of the embedding.

* C++ `int` results are `Int`; `uint32_t` results are `Nat`, produced by the
  explicit conversion `toUint32` (reduction modulo `2^32`); the implicit
  conversion of a `uint32_t` expression to an `int` return type is `toInt32`.
* `size_t plane` is a `Nat`.
* A smart pointer (`scoped_refptr`) is an `Option`; `p->m()` is `deref p`
  followed by the member, and dereferencing an empty pointer is the fault
  `Fault.nullDereference`.
* Raw data pointers (`uint8_t const*`) are addresses, `nullptr` being `0`.
* The collaborators that live outside the translation unit (the blink
  conversion functions, the platform) are fields of `Blink`; the enumerators
  `kVideoCodecMax`, `VIDEO_CODEC_PROFILE_MAX`, `PIXEL_FORMAT_I420` and
  `STORAGE_OWNED_MEMORY` come from a header that is not part of the sources
  and are parameters.
-/

namespace discord.media.electron

/-! ## Machine integers -/

/-- Conversion of an integer value to `uint32_t`: the value modulo `2^32`. -/
def toUint32 (x : Int) : Nat := (x % 4294967296).toNat

/-- Conversion of an integer value to (32-bit) `int`: the representative of
the value modulo `2^32` in `[-2^31, 2^31)`. -/
def toInt32 (x : Int) : Int := (x + 2147483648) % 4294967296 - 2147483648

/-- The constant `UINT32_MAX`. -/
def UINT32_MAX : Nat := 4294967295

/-- Ceiling of `n / 2`, the chroma dimension of a 2x-subsampled plane. -/
def ceilHalf (n : Nat) : Nat := (n + 1) / 2

/-! ## Faults and pointers -/

/-- Run-time faults of the embedded code. -/
inductive Fault where
  | nullDereference
  deriving DecidableEq, Repr

/-- The operator `->` of a smart pointer: faults on an empty pointer. -/
def deref {α : Type} : Option α → Except Fault α
  | some a => Except.ok a
  | none => Except.error Fault.nullDereference

/-- Results of calls can be compared. -/
instance instDecidableEqResult {α : Type} [DecidableEq α] : DecidableEq (Except Fault α)
  | Except.ok a, Except.ok b =>
    if h : a = b then isTrue (by rw [h]) else isFalse (fun e => h (by cases e; rfl))
  | Except.error a, Except.error b =>
    if h : a = b then isTrue (by rw [h]) else isFalse (fun e => h (by cases e; rfl))
  | Except.ok _, Except.error _ => isFalse (fun e => by cases e)
  | Except.error _, Except.ok _ => isFalse (fun e => by cases e)

/-- Whether a call ended in a fault. -/
def isFault {α : Type} : Except Fault α → Bool
  | Except.ok _ => false
  | Except.error _ => true

/-- A raw `uint8_t const*`, as an address. -/
abbrev DataPtr := Nat

/-- The null data pointer. -/
def nullptr : DataPtr := 0

/-! ## `DiscordVideoFormat` -/

/-- The result enumeration `ElectronVideoStatus`. -/
inductive ElectronVideoStatus where
  | Success
  | Failure
  deriving DecidableEq, Repr

/-- A value of the enumeration `ElectronVideoCodec`; `value` is what
`static_cast<int>` yields for it. -/
structure ElectronVideoCodec where
  value : Int
  deriving DecidableEq, Repr

/-- A value of the enumeration `ElectronVideoCodecProfile`; `value` is what
`static_cast<int>` yields for it. -/
structure ElectronVideoCodecProfile where
  value : Int
  deriving DecidableEq, Repr

/-- The data members of `DiscordVideoFormat`. -/
structure DiscordVideoFormat where
  codec_ : ElectronVideoCodec
  profile_ : ElectronVideoCodecProfile
  deriving DecidableEq, Repr

/-- `DiscordVideoFormat::SetCodec`: the status returned and the object after
the call. -/
def DiscordVideoFormat.SetCodec (kVideoCodecMax : ElectronVideoCodec)
    (self : DiscordVideoFormat) (codec : ElectronVideoCodec) :
    ElectronVideoStatus × DiscordVideoFormat :=
  if codec.value > kVideoCodecMax.value then
    (ElectronVideoStatus.Failure, self)
  else
    (ElectronVideoStatus.Success, { self with codec_ := codec })

/-- `DiscordVideoFormat::GetCodec`. -/
def DiscordVideoFormat.GetCodec (self : DiscordVideoFormat) : ElectronVideoCodec :=
  self.codec_

/-- `DiscordVideoFormat::SetProfile`: the status returned and the object after
the call. -/
def DiscordVideoFormat.SetProfile (VIDEO_CODEC_PROFILE_MAX : ElectronVideoCodecProfile)
    (self : DiscordVideoFormat) (profile : ElectronVideoCodecProfile) :
    ElectronVideoStatus × DiscordVideoFormat :=
  if profile.value > VIDEO_CODEC_PROFILE_MAX.value then
    (ElectronVideoStatus.Failure, self)
  else
    (ElectronVideoStatus.Success, { self with profile_ := profile })

/-- `DiscordVideoFormat::GetProfile`. -/
def DiscordVideoFormat.GetProfile (self : DiscordVideoFormat) : ElectronVideoCodecProfile :=
  self.profile_

/-! ## The wrapped `::media::VideoFrame` -/

/-- The `gfx::Rect` returned by `visible_rect()`: `width()` and `height()`
are `int`. -/
structure Rect where
  width : Int
  height : Int
  deriving DecidableEq, Repr

/-- What `DiscordVideoFrame` observes of a `::media::VideoFrame`.
`timestamp` is `timestamp().InMicroseconds()`, an `int64_t`. -/
structure VideoFrame where
  visible_rect : Rect
  timestamp : Int
  IsMappable : Bool
  HasTextures : Bool
  HasGpuMemoryBuffer : Bool
  format : Int
  storage_type : Int
  stride : Nat → Int
  row_bytes : Nat → Int
  rows : Nat → Int
  visible_data : Nat → DataPtr

/-- The data member of `DiscordVideoFrame`: a `scoped_refptr` that may be
empty. -/
structure DiscordVideoFrame where
  frame_ : Option VideoFrame

/-- `DiscordVideoFrame::GetWidth`. -/
def DiscordVideoFrame.GetWidth (self : DiscordVideoFrame) : Except Fault Nat := do
  let f ← deref self.frame_
  pure (toUint32 f.visible_rect.width)

/-- `DiscordVideoFrame::GetHeight`. -/
def DiscordVideoFrame.GetHeight (self : DiscordVideoFrame) : Except Fault Nat := do
  let f ← deref self.frame_
  pure (toUint32 f.visible_rect.height)

/-- `DiscordVideoFrame::GetTimestamp`. -/
def DiscordVideoFrame.GetTimestamp (self : DiscordVideoFrame) : Except Fault Nat := do
  let f ← deref self.frame_
  pure (toUint32 f.timestamp)

/-- `DiscordVideoFrame::GetMediaFrame`: `frame_.get()`, no dereference. -/
def DiscordVideoFrame.GetMediaFrame (self : DiscordVideoFrame) : Option VideoFrame :=
  self.frame_

/-- `DiscordVideoFrame::IsMappable`. -/
def DiscordVideoFrame.IsMappable (self : DiscordVideoFrame) : Except Fault Bool := do
  let f ← deref self.frame_
  pure f.IsMappable

/-- `DiscordVideoFrame::HasTextures`. -/
def DiscordVideoFrame.HasTextures (self : DiscordVideoFrame) : Except Fault Bool := do
  let f ← deref self.frame_
  pure f.HasTextures

/-- `DiscordVideoFrame::HasGpuMemoryBuffer`. -/
def DiscordVideoFrame.HasGpuMemoryBuffer (self : DiscordVideoFrame) : Except Fault Bool := do
  let f ← deref self.frame_
  pure f.HasGpuMemoryBuffer

/-- `DiscordVideoFrame::GetFormat`. -/
def DiscordVideoFrame.GetFormat (self : DiscordVideoFrame) : Except Fault Int := do
  let f ← deref self.frame_
  pure f.format

/-- `DiscordVideoFrame::GetStorageType`. -/
def DiscordVideoFrame.GetStorageType (self : DiscordVideoFrame) : Except Fault Int := do
  let f ← deref self.frame_
  pure f.storage_type

/-- `DiscordVideoFrame::GetStride`. -/
def DiscordVideoFrame.GetStride (self : DiscordVideoFrame) (plane : Nat) : Except Fault Int := do
  let f ← deref self.frame_
  pure (f.stride plane)

/-- `DiscordVideoFrame::GetRowBytes`. -/
def DiscordVideoFrame.GetRowBytes (self : DiscordVideoFrame) (plane : Nat) : Except Fault Int := do
  let f ← deref self.frame_
  pure (f.row_bytes plane)

/-- `DiscordVideoFrame::GetRows`. -/
def DiscordVideoFrame.GetRows (self : DiscordVideoFrame) (plane : Nat) : Except Fault Int := do
  let f ← deref self.frame_
  pure (f.rows plane)

/-- `DiscordVideoFrame::GetData`. -/
def DiscordVideoFrame.GetData (self : DiscordVideoFrame) (plane : Nat) : Except Fault DataPtr := do
  let f ← deref self.frame_
  pure (f.visible_data plane)

/-! ## `RtcI420FrameWrapper` -/

/-- What the wrapper observes of a `webrtc::I420BufferInterface`: `width()`,
`height()` and the strides are `int`, the planes are raw pointers. -/
structure I420BufferInterface where
  width : Int
  height : Int
  StrideY : Int
  StrideU : Int
  StrideV : Int
  DataY : DataPtr
  DataU : DataPtr
  DataV : DataPtr
  deriving DecidableEq, Repr

/-- The data member of `RtcI420FrameWrapper`: an `rtc::scoped_refptr`. -/
structure RtcI420FrameWrapper where
  frame_ : Option I420BufferInterface
  deriving DecidableEq, Repr

/-- `RtcI420FrameWrapper::GetWidth`: `frame_->width()` returned as `uint32_t`. -/
def RtcI420FrameWrapper.GetWidth (self : RtcI420FrameWrapper) : Except Fault Nat := do
  let f ← deref self.frame_
  pure (toUint32 f.width)

/-- `RtcI420FrameWrapper::GetHeight`: `frame_->height()` returned as `uint32_t`. -/
def RtcI420FrameWrapper.GetHeight (self : RtcI420FrameWrapper) : Except Fault Nat := do
  let f ← deref self.frame_
  pure (toUint32 f.height)

/-- `RtcI420FrameWrapper::ToI420`: returns `this`. -/
def RtcI420FrameWrapper.ToI420 (self : RtcI420FrameWrapper) : RtcI420FrameWrapper :=
  self

/-- `RtcI420FrameWrapper::GetTimestamp`. -/
def RtcI420FrameWrapper.GetTimestamp (_self : RtcI420FrameWrapper) : Nat :=
  UINT32_MAX

/-- `RtcI420FrameWrapper::IsMappable`. -/
def RtcI420FrameWrapper.IsMappable (_self : RtcI420FrameWrapper) : Bool := true

/-- `RtcI420FrameWrapper::HasTextures`. -/
def RtcI420FrameWrapper.HasTextures (_self : RtcI420FrameWrapper) : Bool := false

/-- `RtcI420FrameWrapper::HasGpuMemoryBuffer`. -/
def RtcI420FrameWrapper.HasGpuMemoryBuffer (_self : RtcI420FrameWrapper) : Bool := false

/-- `RtcI420FrameWrapper::GetFormat`. -/
def RtcI420FrameWrapper.GetFormat (PIXEL_FORMAT_I420 : Int) (_self : RtcI420FrameWrapper) : Int :=
  PIXEL_FORMAT_I420

/-- `RtcI420FrameWrapper::GetStorageType`. -/
def RtcI420FrameWrapper.GetStorageType (STORAGE_OWNED_MEMORY : Int)
    (_self : RtcI420FrameWrapper) : Int :=
  STORAGE_OWNED_MEMORY

/-- `RtcI420FrameWrapper::GetStride`. -/
def RtcI420FrameWrapper.GetStride (self : RtcI420FrameWrapper) (plane : Nat) :
    Except Fault Int :=
  match plane with
  | 0 => do
    let f ← deref self.frame_
    pure f.StrideY
  | 1 => do
    let f ← deref self.frame_
    pure f.StrideU
  | 2 => do
    let f ← deref self.frame_
    pure f.StrideV
  | _ => pure 0

/-- `RtcI420FrameWrapper::GetData`. -/
def RtcI420FrameWrapper.GetData (self : RtcI420FrameWrapper) (plane : Nat) :
    Except Fault DataPtr :=
  match plane with
  | 0 => do
    let f ← deref self.frame_
    pure f.DataY
  | 1 => do
    let f ← deref self.frame_
    pure f.DataU
  | 2 => do
    let f ← deref self.frame_
    pure f.DataV
  | _ => pure nullptr

/-- `RtcI420FrameWrapper::GetRowBytes`: the `uint32_t` expressions
`GetWidth()` and `GetWidth() / 2` converted to the `int` return type. -/
def RtcI420FrameWrapper.GetRowBytes (self : RtcI420FrameWrapper) (plane : Nat) :
    Except Fault Int :=
  match plane with
  | 0 => do
    let w ← self.GetWidth
    pure (toInt32 (w : Int))
  | 1 => do
    let w ← self.GetWidth
    pure (toInt32 ((w / 2 : Nat) : Int))
  | 2 => do
    let w ← self.GetWidth
    pure (toInt32 ((w / 2 : Nat) : Int))
  | _ => pure 0

/-- `RtcI420FrameWrapper::GetRows`: the `uint32_t` expressions `GetHeight()`
and `GetHeight() / 2` converted to the `int` return type. -/
def RtcI420FrameWrapper.GetRows (self : RtcI420FrameWrapper) (plane : Nat) :
    Except Fault Int :=
  match plane with
  | 0 => do
    let h ← self.GetHeight
    pure (toInt32 (h : Int))
  | 1 => do
    let h ← self.GetHeight
    pure (toInt32 ((h / 2 : Nat) : Int))
  | 2 => do
    let h ← self.GetHeight
    pure (toInt32 ((h / 2 : Nat) : Int))
  | _ => pure 0

/-! ## `DiscordVideoFrame::ToI420` and its collaborators -/

/-- The `media::GpuVideoAcceleratorFactories*` handed out by the platform, as
an address. -/
abbrev GpuFactories := Nat

/-- A `WebRtcVideoFrameAdapter::SharedResources` object.  `serial` is the
ordinal of the `MakeRefCounted` call that created it, which identifies the
object; `gpu_factories` is its constructor argument. -/
structure SharedResources where
  serial : Nat
  gpu_factories : GpuFactories
  deriving DecidableEq, Repr

/-- A `webrtc::VideoFrameBuffer` as returned by the conversion; `ToI420` is
the (possibly empty) `rtc::scoped_refptr` its `ToI420()` yields. -/
structure VideoFrameBuffer where
  ToI420 : Option I420BufferInterface
  deriving DecidableEq, Repr

/-- The blink services called by `DiscordVideoFrame::ToI420`.
`GetGpuFactories` is `Platform::Current()->GetGpuFactories()`.  They are
outside the translation unit: each is an arbitrary function of its arguments
and is taken to return. -/
structure Blink where
  CanConvertToWebRtcVideoFrameBuffer : VideoFrame → Bool
  ConvertToWebRtcVideoFrameBuffer : VideoFrame → SharedResources → Option VideoFrameBuffer
  GetGpuFactories : GpuFactories

/-- The observable history of the process: how many `SharedResources` objects
have been created, and the conversions invoked so far (oldest first), each
with the frame and the pool it was given. -/
structure World where
  shared_created : Nat
  conversions : List (VideoFrame × SharedResources)

/-- `DiscordVideoFrame::ToI420`: the pointer returned (`none` is `nullptr`)
and the history after the call. -/
def DiscordVideoFrame.ToI420 (blink : Blink) (self : DiscordVideoFrame) (w : World) :
    Except Fault (Option RtcI420FrameWrapper) × World :=
  match self.frame_ with
  | none => (Except.ok none, w)
  | some frame =>
    if !blink.CanConvertToWebRtcVideoFrameBuffer frame then
      (Except.ok none, w)
    else
      let shared : SharedResources := ⟨w.shared_created, blink.GetGpuFactories⟩
      let ret := blink.ConvertToWebRtcVideoFrameBuffer frame shared
      let w2 : World := ⟨w.shared_created + 1, w.conversions ++ [(frame, shared)]⟩
      match ret with
      | none => (Except.ok none, w2)
      | some buffer => (Except.ok (some ⟨buffer.ToI420⟩), w2)

/-- A sequence of `ToI420` calls, one per handle of the list, in order: the
history after the last call. -/
def ToI420Calls (blink : Blink) : List DiscordVideoFrame → World → World
  | [], w => w
  | d :: ds, w => ToI420Calls blink ds (DiscordVideoFrame.ToI420 blink d w).2

/-! ## Concrete inputs -/

/-- A 1x1 I420 buffer. -/
def buffer1x1 : I420BufferInterface :=
  ⟨1, 1, 1, 1, 1, 4096, 4097, 4098⟩

/-- A 5x3 I420 buffer with padded rows. -/
def buffer5x3 : I420BufferInterface :=
  ⟨5, 3, 8, 4, 4, 4096, 4120, 4128⟩

/-- A 640x480 texture-backed frame captured at 7 microseconds. -/
def frame640x480 : VideoFrame :=
  { visible_rect := ⟨640, 480⟩, timestamp := 7, IsMappable := false, HasTextures := true,
    HasGpuMemoryBuffer := false, format := 1, storage_type := 0,
    stride := fun _ => 0, row_bytes := fun _ => 0, rows := fun _ => 0,
    visible_data := fun _ => 0 }

/-- A conversion service that converts every frame to the 5x3 buffer. -/
def blinkAlways : Blink :=
  { CanConvertToWebRtcVideoFrameBuffer := fun _ => true,
    ConvertToWebRtcVideoFrameBuffer := fun _ _ => some ⟨some buffer5x3⟩,
    GetGpuFactories := 0 }

/-- A conversion service that refuses every frame. -/
def blinkNever : Blink :=
  { CanConvertToWebRtcVideoFrameBuffer := fun _ => false,
    ConvertToWebRtcVideoFrameBuffer := fun _ _ => some ⟨some buffer5x3⟩,
    GetGpuFactories := 0 }

/-- The history of a fresh process. -/
def world0 : World := ⟨0, []⟩

/-! ## Helper lemmas -/

theorem toUint32_of_nonneg_lt (x : Int) (h0 : 0 ≤ x) (h1 : x < 4294967296) :
    ((toUint32 x : Nat) : Int) = x := by
  unfold toUint32
  rw [Int.emod_eq_of_lt h0 h1]
  exact Int.toNat_of_nonneg h0

theorem toUint32_cast (x : Int) : ((toUint32 x : Nat) : Int) = x % 4294967296 := by
  unfold toUint32
  exact Int.toNat_of_nonneg (Int.emod_nonneg x (by decide))

theorem toInt32_of_int_range (x : Int) (h0 : -2147483648 ≤ x) (h1 : x < 2147483648) :
    toInt32 x = x := by
  unfold toInt32
  omega

theorem toUint32_toInt32_toUint32 (x : Int) :
    toUint32 (toInt32 ((toUint32 x : Nat) : Int)) = toUint32 x := by
  have h := toUint32_cast x
  have e : toInt32 ((toUint32 x : Nat) : Int) % 4294967296 = x % 4294967296 := by
    rw [h]
    unfold toInt32
    omega
  show (toInt32 ((toUint32 x : Nat) : Int) % 4294967296).toNat = (x % 4294967296).toNat
  rw [e]

theorem ToI420_set_convertible (blink : Blink) (f : VideoFrame) (w : World)
    (hc : blink.CanConvertToWebRtcVideoFrameBuffer f = true) :
    (DiscordVideoFrame.ToI420 blink ⟨some f⟩ w).2 =
      ⟨w.shared_created + 1,
        w.conversions ++ [(f, ⟨w.shared_created, blink.GetGpuFactories⟩)]⟩ := by
  unfold DiscordVideoFrame.ToI420
  simp only [hc]
  cases blink.ConvertToWebRtcVideoFrameBuffer f ⟨w.shared_created, blink.GetGpuFactories⟩ <;> rfl

/-! ## C1, C10: `DiscordVideoFormat` -/

/-- C1: a codec whose integer value exceeds `kVideoCodecMax` makes `SetCodec`
return `Failure`, and a profile whose integer value exceeds
`VIDEO_CODEC_PROFILE_MAX` makes `SetProfile` return `Failure`; in both cases
the object is left as it was, so `GetCodec` and `GetProfile` return the same
values after the call as before it. -/
theorem SetCodec_SetProfile_reject_above_max
    (kVideoCodecMax : ElectronVideoCodec) (VIDEO_CODEC_PROFILE_MAX : ElectronVideoCodecProfile)
    (self : DiscordVideoFormat) (codec : ElectronVideoCodec)
    (profile : ElectronVideoCodecProfile)
    (hc : kVideoCodecMax.value < codec.value)
    (hp : VIDEO_CODEC_PROFILE_MAX.value < profile.value) :
    ((self.SetCodec kVideoCodecMax codec).1 = ElectronVideoStatus.Failure ∧
      (self.SetCodec kVideoCodecMax codec).2 = self ∧
      (self.SetCodec kVideoCodecMax codec).2.GetCodec = self.GetCodec ∧
      (self.SetCodec kVideoCodecMax codec).2.GetProfile = self.GetProfile) ∧
    ((self.SetProfile VIDEO_CODEC_PROFILE_MAX profile).1 = ElectronVideoStatus.Failure ∧
      (self.SetProfile VIDEO_CODEC_PROFILE_MAX profile).2 = self ∧
      (self.SetProfile VIDEO_CODEC_PROFILE_MAX profile).2.GetCodec = self.GetCodec ∧
      (self.SetProfile VIDEO_CODEC_PROFILE_MAX profile).2.GetProfile = self.GetProfile) := by
  have h1 : self.SetCodec kVideoCodecMax codec = (ElectronVideoStatus.Failure, self) := by
    unfold DiscordVideoFormat.SetCodec
    rw [if_pos hc]
  have h2 : self.SetProfile VIDEO_CODEC_PROFILE_MAX profile =
      (ElectronVideoStatus.Failure, self) := by
    unfold DiscordVideoFormat.SetProfile
    rw [if_pos hp]
  rw [h1, h2]
  exact ⟨⟨rfl, rfl, rfl, rfl⟩, rfl, rfl, rfl, rfl⟩

/-- Witness of C1: with maxima 3 and 10, codec 4 and profile 11 are rejected on
an object holding codec 2 and profile 5. -/
theorem SetCodec_SetProfile_reject_above_max_witness :
    ((DiscordVideoFormat.SetCodec ⟨3⟩ ⟨⟨2⟩, ⟨5⟩⟩ ⟨4⟩).1 = ElectronVideoStatus.Failure ∧
      (DiscordVideoFormat.SetCodec ⟨3⟩ ⟨⟨2⟩, ⟨5⟩⟩ ⟨4⟩).2.GetCodec = ⟨2⟩) ∧
    ((DiscordVideoFormat.SetProfile ⟨10⟩ ⟨⟨2⟩, ⟨5⟩⟩ ⟨11⟩).1 = ElectronVideoStatus.Failure ∧
      (DiscordVideoFormat.SetProfile ⟨10⟩ ⟨⟨2⟩, ⟨5⟩⟩ ⟨11⟩).2.GetProfile = ⟨5⟩) :=
  have h := SetCodec_SetProfile_reject_above_max ⟨3⟩ ⟨10⟩ ⟨⟨2⟩, ⟨5⟩⟩ ⟨4⟩ ⟨11⟩
    (by decide) (by decide)
  ⟨⟨h.1.1, h.1.2.2.1⟩, h.2.1, h.2.2.2.2⟩

/-- C10: `SetCodec(c)` returns `Success` exactly when the signed integer value
of `c` is at most that of `kVideoCodecMax` (no lower bound is checked), and
whenever it returns `Success` a following `GetCodec` returns `c` while
`GetProfile` is unchanged. -/
theorem SetCodec_success_iff (kVideoCodecMax : ElectronVideoCodec)
    (self : DiscordVideoFormat) (c : ElectronVideoCodec) :
    ((self.SetCodec kVideoCodecMax c).1 = ElectronVideoStatus.Success ↔
      c.value ≤ kVideoCodecMax.value) ∧
    ((self.SetCodec kVideoCodecMax c).1 = ElectronVideoStatus.Success →
      (self.SetCodec kVideoCodecMax c).2.GetCodec = c ∧
      (self.SetCodec kVideoCodecMax c).2.GetProfile = self.GetProfile) := by
  unfold DiscordVideoFormat.SetCodec
  by_cases h : c.value > kVideoCodecMax.value
  · rw [if_pos h]
    refine ⟨⟨fun hs => ?_, fun hle => ?_⟩, fun hs => ?_⟩
    · cases hs
    · exact absurd h (not_lt.mpr hle)
    · cases hs
  · rw [if_neg h]
    exact ⟨⟨fun _ => not_lt.mp h, fun _ => rfl⟩, fun _ => ⟨rfl, rfl⟩⟩

/-- Witness of C10: with maximum 3, the codec of value -5 (below any valid
enumerant) is accepted and stored, the profile staying 5. -/
theorem SetCodec_success_iff_witness :
    (DiscordVideoFormat.SetCodec ⟨3⟩ ⟨⟨2⟩, ⟨5⟩⟩ ⟨-5⟩).1 = ElectronVideoStatus.Success ∧
    (DiscordVideoFormat.SetCodec ⟨3⟩ ⟨⟨2⟩, ⟨5⟩⟩ ⟨-5⟩).2.GetCodec = ⟨-5⟩ ∧
    (DiscordVideoFormat.SetCodec ⟨3⟩ ⟨⟨2⟩, ⟨5⟩⟩ ⟨-5⟩).2.GetProfile = ⟨5⟩ :=
  have h := SetCodec_success_iff ⟨3⟩ ⟨⟨2⟩, ⟨5⟩⟩ ⟨-5⟩
  have hs := h.1.mpr (by decide)
  ⟨hs, h.2 hs⟩

/-! ## C7, C8, C2, C3: `RtcI420FrameWrapper` -/

/-- C7: for a planar view over an I420 buffer `b`, `GetStride` of planes 0, 1,
2 is the Y, U, V stride of `b`, and `GetData` of planes 0, 1, 2 is the Y, U, V
plane pointer of `b`. -/
theorem GetStride_GetData_plane_order (b : I420BufferInterface) :
    RtcI420FrameWrapper.GetStride ⟨some b⟩ 0 = Except.ok b.StrideY ∧
    RtcI420FrameWrapper.GetStride ⟨some b⟩ 1 = Except.ok b.StrideU ∧
    RtcI420FrameWrapper.GetStride ⟨some b⟩ 2 = Except.ok b.StrideV ∧
    RtcI420FrameWrapper.GetData ⟨some b⟩ 0 = Except.ok b.DataY ∧
    RtcI420FrameWrapper.GetData ⟨some b⟩ 1 = Except.ok b.DataU ∧
    RtcI420FrameWrapper.GetData ⟨some b⟩ 2 = Except.ok b.DataV :=
  ⟨rfl, rfl, rfl, rfl, rfl, rfl⟩

/-- C8: for every planar view over an I420 buffer, plane 0 has as many rows as
the view is high and rows as wide as the view: `GetRows(0)` and `GetHeight()`,
and `GetRowBytes(0)` and `GetWidth()`, are the same 32-bit value (one read as
`int`, the other as `uint32_t`), and they are the same integer, the height
resp. the width of the buffer, whenever that dimension is a non-negative
`int`. -/
theorem GetRows_GetRowBytes_luma (b : I420BufferInterface) :
    ∃ w h : Nat, ∃ rowBytes rows : Int,
      RtcI420FrameWrapper.GetWidth ⟨some b⟩ = Except.ok w ∧
      RtcI420FrameWrapper.GetHeight ⟨some b⟩ = Except.ok h ∧
      RtcI420FrameWrapper.GetRowBytes ⟨some b⟩ 0 = Except.ok rowBytes ∧
      RtcI420FrameWrapper.GetRows ⟨some b⟩ 0 = Except.ok rows ∧
      toUint32 rowBytes = w ∧ toUint32 rows = h ∧
      (0 ≤ b.width → b.width < 2147483648 → rowBytes = (w : Int) ∧ (w : Int) = b.width) ∧
      (0 ≤ b.height → b.height < 2147483648 → rows = (h : Int) ∧ (h : Int) = b.height) := by
  refine ⟨toUint32 b.width, toUint32 b.height, toInt32 ((toUint32 b.width : Nat) : Int),
    toInt32 ((toUint32 b.height : Nat) : Int), rfl, rfl, rfl, rfl,
    toUint32_toInt32_toUint32 b.width, toUint32_toInt32_toUint32 b.height, ?_, ?_⟩
  · intro h0 h1
    have e : ((toUint32 b.width : Nat) : Int) = b.width :=
      toUint32_of_nonneg_lt b.width h0 (by omega)
    rw [e, toInt32_of_int_range b.width (by omega) h1]
    exact ⟨rfl, rfl⟩
  · intro h0 h1
    have e : ((toUint32 b.height : Nat) : Int) = b.height :=
      toUint32_of_nonneg_lt b.height h0 (by omega)
    rw [e, toInt32_of_int_range b.height (by omega) h1]
    exact ⟨rfl, rfl⟩

/-- Witness of C8: on the 5x3 buffer plane 0 has 3 rows of 5 bytes, the height
and the width of the view. -/
theorem GetRows_GetRowBytes_luma_witness :
    RtcI420FrameWrapper.GetRowBytes ⟨some buffer5x3⟩ 0 = Except.ok 5 ∧
    RtcI420FrameWrapper.GetWidth ⟨some buffer5x3⟩ = Except.ok 5 ∧
    RtcI420FrameWrapper.GetRows ⟨some buffer5x3⟩ 0 = Except.ok 3 ∧
    RtcI420FrameWrapper.GetHeight ⟨some buffer5x3⟩ = Except.ok 3 := by
  obtain ⟨w, h, rowBytes, rows, e1, e2, e3, e4, _, _, hw, hh⟩ :=
    GetRows_GetRowBytes_luma buffer5x3
  obtain ⟨a1, a2⟩ := hw (by decide) (by decide)
  obtain ⟨a3, a4⟩ := hh (by decide) (by decide)
  have hw5 : (w : Int) = 5 := a2
  have hh3 : (h : Int) = 3 := a4
  have w5 : w = 5 := by omega
  have h3 : h = 3 := by omega
  subst w5 h3
  rw [a1] at e3
  rw [a3] at e4
  exact ⟨e3, e1, e4, e2⟩

/-- C2, the code at odd dimensions: on the 1x1 buffer the chroma planes report
0 rows of 0 bytes, and on the 5x3 buffer 1 row of 2 bytes, while the ceilings
of the halves are 1 and 1, resp. 2 and 3. -/
theorem GetRows_GetRowBytes_chroma_odd :
    (RtcI420FrameWrapper.GetRows ⟨some buffer1x1⟩ 1 = Except.ok 0 ∧
      RtcI420FrameWrapper.GetRows ⟨some buffer1x1⟩ 2 = Except.ok 0 ∧
      RtcI420FrameWrapper.GetRowBytes ⟨some buffer1x1⟩ 1 = Except.ok 0 ∧
      RtcI420FrameWrapper.GetRowBytes ⟨some buffer1x1⟩ 2 = Except.ok 0 ∧
      ceilHalf 1 = 1) ∧
    (RtcI420FrameWrapper.GetRows ⟨some buffer5x3⟩ 1 = Except.ok 1 ∧
      RtcI420FrameWrapper.GetRows ⟨some buffer5x3⟩ 2 = Except.ok 1 ∧
      RtcI420FrameWrapper.GetRowBytes ⟨some buffer5x3⟩ 1 = Except.ok 2 ∧
      RtcI420FrameWrapper.GetRowBytes ⟨some buffer5x3⟩ 2 = Except.ok 2 ∧
      ceilHalf 3 = 2 ∧ ceilHalf 5 = 3) := by
  refine ⟨⟨?_, ?_, ?_, ?_, ?_⟩, ?_, ?_, ?_, ?_, ?_, ?_⟩ <;> decide

/-- C3 as stated fails: on the 5x3 buffer, plane 3 makes none of the four
accessors fault or report an error; `GetStride`, `GetRowBytes` and `GetRows`
return the plain integer 0 and `GetData` returns the null pointer. -/
theorem plane3_no_error_indicator :
    (isFault (RtcI420FrameWrapper.GetStride ⟨some buffer5x3⟩ 3) = false ∧
      isFault (RtcI420FrameWrapper.GetData ⟨some buffer5x3⟩ 3) = false ∧
      isFault (RtcI420FrameWrapper.GetRowBytes ⟨some buffer5x3⟩ 3) = false ∧
      isFault (RtcI420FrameWrapper.GetRows ⟨some buffer5x3⟩ 3) = false) ∧
    ¬ (RtcI420FrameWrapper.GetStride ⟨some buffer5x3⟩ 3 ≠ Except.ok 0 ∨
      RtcI420FrameWrapper.GetData ⟨some buffer5x3⟩ 3 ≠ Except.ok nullptr ∨
      RtcI420FrameWrapper.GetRowBytes ⟨some buffer5x3⟩ 3 ≠ Except.ok 0 ∨
      RtcI420FrameWrapper.GetRows ⟨some buffer5x3⟩ 3 ≠ Except.ok 0) := by
  refine ⟨⟨rfl, rfl, rfl, rfl⟩, ?_⟩
  intro h
  rcases h with h | h | h | h <;> exact h rfl

/-- C3 amended: for every planar view (over a buffer or holding an empty
pointer) and every plane index `p >= 3`, `GetStride(p)`, `GetRowBytes(p)` and
`GetRows(p)` return 0 and `GetData(p)` returns the null pointer, without
touching the buffer. -/
theorem plane_out_of_range_returns_zero (self : RtcI420FrameWrapper) (p : Nat)
    (hp : 3 ≤ p) :
    self.GetStride p = Except.ok 0 ∧
    self.GetData p = Except.ok nullptr ∧
    self.GetRowBytes p = Except.ok 0 ∧
    self.GetRows p = Except.ok 0 := by
  obtain ⟨q, rfl⟩ : ∃ q, p = q + 3 := ⟨p - 3, by omega⟩
  exact ⟨rfl, rfl, rfl, rfl⟩

/-- Witness of C3 amended: plane 7 of the 1x1 buffer. -/
theorem plane_out_of_range_returns_zero_witness :
    RtcI420FrameWrapper.GetStride ⟨some buffer1x1⟩ 7 = Except.ok 0 ∧
    RtcI420FrameWrapper.GetData ⟨some buffer1x1⟩ 7 = Except.ok nullptr ∧
    RtcI420FrameWrapper.GetRowBytes ⟨some buffer1x1⟩ 7 = Except.ok 0 ∧
    RtcI420FrameWrapper.GetRows ⟨some buffer1x1⟩ 7 = Except.ok 0 :=
  plane_out_of_range_returns_zero ⟨some buffer1x1⟩ 7 (by decide)

/-! ## C9, C5: accessors of `DiscordVideoFrame` -/

/-- C9: on a set frame handle whose frame timestamp is `t` microseconds,
`GetTimestamp` returns `t` truncated to 32 bits, that is `t mod 2^32`; the
returned value equals `t` exactly when `0 <= t < 2^32`. -/
theorem GetTimestamp_truncates (f : VideoFrame) :
    ∃ r : Nat,
      DiscordVideoFrame.GetTimestamp ⟨some f⟩ = Except.ok r ∧
      (r : Int) = f.timestamp % 4294967296 ∧
      ((r : Int) = f.timestamp ↔ 0 ≤ f.timestamp ∧ f.timestamp < 4294967296) := by
  have hr : ((toUint32 f.timestamp : Nat) : Int) = f.timestamp % 4294967296 :=
    toUint32_cast f.timestamp
  refine ⟨toUint32 f.timestamp, rfl, hr, ?_⟩
  rw [hr]
  omega

/-- C5, the code on an empty handle: every accessor of `DiscordVideoFrame`
that goes through `frame_->` ends in a null dereference, while the two members
that test `frame_` first do not: `ToI420` returns a null result and
`GetMediaFrame` a null pointer. -/
theorem accessors_fault_on_unset_frame :
    (DiscordVideoFrame.GetWidth ⟨none⟩ = Except.error Fault.nullDereference ∧
      DiscordVideoFrame.GetHeight ⟨none⟩ = Except.error Fault.nullDereference ∧
      DiscordVideoFrame.GetTimestamp ⟨none⟩ = Except.error Fault.nullDereference ∧
      DiscordVideoFrame.IsMappable ⟨none⟩ = Except.error Fault.nullDereference ∧
      DiscordVideoFrame.HasTextures ⟨none⟩ = Except.error Fault.nullDereference ∧
      DiscordVideoFrame.HasGpuMemoryBuffer ⟨none⟩ = Except.error Fault.nullDereference ∧
      DiscordVideoFrame.GetFormat ⟨none⟩ = Except.error Fault.nullDereference ∧
      DiscordVideoFrame.GetStorageType ⟨none⟩ = Except.error Fault.nullDereference ∧
      DiscordVideoFrame.GetStride ⟨none⟩ 0 = Except.error Fault.nullDereference ∧
      DiscordVideoFrame.GetRowBytes ⟨none⟩ 0 = Except.error Fault.nullDereference ∧
      DiscordVideoFrame.GetRows ⟨none⟩ 0 = Except.error Fault.nullDereference ∧
      DiscordVideoFrame.GetData ⟨none⟩ 0 = Except.error Fault.nullDereference) ∧
    (DiscordVideoFrame.ToI420 blinkAlways ⟨none⟩ world0).1 = Except.ok none ∧
    (DiscordVideoFrame.GetMediaFrame ⟨none⟩).isNone = true :=
  ⟨⟨rfl, rfl, rfl, rfl, rfl, rfl, rfl, rfl, rfl, rfl, rfl, rfl⟩, rfl, rfl⟩

/-! ## C4, C6: `DiscordVideoFrame::ToI420` -/

/-- C4: `ToI420` never faults; it returns a null result exactly when the
wrapped frame is unset, or `CanConvertToWebRtcVideoFrameBuffer` reports false
for it, or the conversion (called with the pool created by this call) yields
no buffer; when the frame is set, convertible and converted to `buffer`, it
returns a non-null planar view wrapping `buffer->ToI420()`; and on an unset or
an unconvertible frame the history is unchanged, so no pool was created and no
conversion was invoked. -/
theorem ToI420_null_iff (blink : Blink) (self : DiscordVideoFrame) (w : World) :
    (isFault (self.ToI420 blink w).1 = false) ∧
    ((self.ToI420 blink w).1 = Except.ok none ↔
      (self.frame_ = none ∨
        (∃ f, self.frame_ = some f ∧ blink.CanConvertToWebRtcVideoFrameBuffer f = false) ∨
        (∃ f, self.frame_ = some f ∧
          blink.ConvertToWebRtcVideoFrameBuffer f ⟨w.shared_created, blink.GetGpuFactories⟩
            = none))) ∧
    (∀ f buffer, self.frame_ = some f →
      blink.CanConvertToWebRtcVideoFrameBuffer f = true →
      blink.ConvertToWebRtcVideoFrameBuffer f ⟨w.shared_created, blink.GetGpuFactories⟩
        = some buffer →
      (self.ToI420 blink w).1 = Except.ok (some ⟨buffer.ToI420⟩)) ∧
    ((self.frame_ = none ∨
        (∃ f, self.frame_ = some f ∧ blink.CanConvertToWebRtcVideoFrameBuffer f = false)) →
      (self.ToI420 blink w).2 = w) := by
  obtain ⟨fr⟩ := self
  cases fr with
  | none =>
    refine ⟨rfl, ⟨fun _ => Or.inl rfl, fun _ => rfl⟩, ?_, fun _ => rfl⟩
    intro f buffer h
    cases h
  | some f =>
    cases hc : blink.CanConvertToWebRtcVideoFrameBuffer f with
    | false =>
      have e : DiscordVideoFrame.ToI420 blink ⟨some f⟩ w = (Except.ok none, w) := by
        simp [DiscordVideoFrame.ToI420, hc]
      rw [e]
      refine ⟨rfl, ⟨fun _ => Or.inr (Or.inl ⟨f, rfl, hc⟩), fun _ => rfl⟩, ?_, fun _ => rfl⟩
      intro g buffer hg hcg
      cases hg
      rw [hc] at hcg
      cases hcg
    | true =>
      cases hr : blink.ConvertToWebRtcVideoFrameBuffer f
          ⟨w.shared_created, blink.GetGpuFactories⟩ with
      | none =>
        have e : (DiscordVideoFrame.ToI420 blink ⟨some f⟩ w).1 = Except.ok none := by
          simp [DiscordVideoFrame.ToI420, hc, hr]
        rw [e]
        refine ⟨rfl, ⟨fun _ => Or.inr (Or.inr ⟨f, rfl, hr⟩), fun _ => rfl⟩, ?_, ?_⟩
        · intro g buffer hg _ hrg
          cases hg
          rw [hr] at hrg
          cases hrg
        · intro h
          rcases h with h | ⟨g, hg, hcg⟩
          · cases h
          · cases hg
            rw [hc] at hcg
            cases hcg
      | some buffer =>
        have e : (DiscordVideoFrame.ToI420 blink ⟨some f⟩ w).1 =
            Except.ok (some ⟨buffer.ToI420⟩) := by
          simp [DiscordVideoFrame.ToI420, hc, hr]
        rw [e]
        refine ⟨rfl, ⟨fun h => ?_, fun h => ?_⟩, ?_, ?_⟩
        · cases h
        · rcases h with h | ⟨g, hg, hcg⟩ | ⟨g, hg, hrg⟩
          · cases h
          · cases hg
            rw [hc] at hcg
            cases hcg
          · cases hg
            rw [hr] at hrg
            cases hrg
        · intro g buffer2 hg _ hrg
          cases hg
          rw [hr] at hrg
          cases hrg
          rfl
        · intro h
          rcases h with h | ⟨g, hg, hcg⟩
          · cases h
          · cases hg
            rw [hc] at hcg
            cases hcg

/-- Witness of C4: an unset handle gives a null result and leaves the history
alone; a frame the service refuses gives a null result and leaves the history
alone; a frame the service converts gives the view over the converted
buffer. -/
theorem ToI420_null_iff_witness :
    ((DiscordVideoFrame.ToI420 blinkAlways ⟨none⟩ world0).1 = Except.ok none ∧
      (DiscordVideoFrame.ToI420 blinkAlways ⟨none⟩ world0).2 = world0) ∧
    ((DiscordVideoFrame.ToI420 blinkNever ⟨some frame640x480⟩ world0).1 = Except.ok none ∧
      (DiscordVideoFrame.ToI420 blinkNever ⟨some frame640x480⟩ world0).2 = world0) ∧
    (DiscordVideoFrame.ToI420 blinkAlways ⟨some frame640x480⟩ world0).1 =
      Except.ok (some ⟨some buffer5x3⟩) :=
  ⟨⟨(ToI420_null_iff blinkAlways ⟨none⟩ world0).2.1.mpr (Or.inl rfl),
      (ToI420_null_iff blinkAlways ⟨none⟩ world0).2.2.2 (Or.inl rfl)⟩,
    ⟨(ToI420_null_iff blinkNever ⟨some frame640x480⟩ world0).2.1.mpr
        (Or.inr (Or.inl ⟨frame640x480, rfl, rfl⟩)),
      (ToI420_null_iff blinkNever ⟨some frame640x480⟩ world0).2.2.2
        (Or.inr ⟨frame640x480, rfl, rfl⟩)⟩,
    (ToI420_null_iff blinkAlways ⟨some frame640x480⟩ world0).2.2.1
      frame640x480 ⟨some buffer5x3⟩ rfl rfl rfl⟩

/-- C6 as stated fails: two `ToI420` calls on a set, convertible frame in a
fresh process create two pools, not at most one, and the two conversions are
given different pools (the first and the second one created). -/
theorem second_call_creates_second_pool :
    ¬ ((ToI420Calls blinkAlways [⟨some frame640x480⟩, ⟨some frame640x480⟩] world0).shared_created
        ≤ world0.shared_created + 1) ∧
    (ToI420Calls blinkAlways [⟨some frame640x480⟩, ⟨some frame640x480⟩]
        world0).conversions.map (fun c => c.2) = [⟨0, 0⟩, ⟨1, 0⟩] := by
  constructor
  · decide
  · rfl

/-- C6 amended: over every sequence of `ToI420` calls on set, convertible
frames, every call creates one new pool and passes that new pool to its own
conversion: after `n` calls `n` more pools exist, and the pools given to the
`n` conversions are the `n` new ones, in order of creation. -/
theorem ToI420Calls_pool_per_call (blink : Blink) (ds : List DiscordVideoFrame) (w : World)
    (h : ∀ d ∈ ds, ∃ f, d.frame_ = some f ∧
      blink.CanConvertToWebRtcVideoFrameBuffer f = true) :
    (ToI420Calls blink ds w).shared_created = w.shared_created + ds.length ∧
    (ToI420Calls blink ds w).conversions.map (fun c => c.2) =
      w.conversions.map (fun c => c.2) ++
        (List.range' w.shared_created ds.length).map
          (fun i => (⟨i, blink.GetGpuFactories⟩ : SharedResources)) ∧
    (ToI420Calls blink ds w).conversions.map (fun c => c.1) =
      w.conversions.map (fun c => c.1) ++ ds.filterMap (fun d => d.frame_) := by
  induction ds generalizing w with
  | nil => simp [ToI420Calls]
  | cons d ds ih =>
    obtain ⟨f, hf, hc⟩ := h d (List.mem_cons_self d ds)
    obtain ⟨fr⟩ := d
    cases hf
    have step := ToI420_set_convertible blink f w hc
    have rest := ih (DiscordVideoFrame.ToI420 blink ⟨some f⟩ w).2
      (fun e he => h e (List.mem_cons_of_mem _ he))
    rw [step] at rest
    simp only [ToI420Calls]
    rw [step]
    obtain ⟨r1, r2, r3⟩ := rest
    refine ⟨?_, ?_, ?_⟩
    · rw [r1]
      simp only [List.length_cons]
      omega
    · rw [r2]
      simp [List.range'_succ]
    · rw [r3]
      simp

/-- Witness of C6 amended: three calls on the same convertible frame in a
fresh process create the pools 0, 1, 2. -/
theorem ToI420Calls_pool_per_call_witness :
    (ToI420Calls blinkAlways
      [⟨some frame640x480⟩, ⟨some frame640x480⟩, ⟨some frame640x480⟩] world0).shared_created
      = world0.shared_created + 3 :=
  (ToI420Calls_pool_per_call blinkAlways
    [⟨some frame640x480⟩, ⟨some frame640x480⟩, ⟨some frame640x480⟩] world0
    (fun d hd => by
      simp only [List.mem_cons, List.mem_singleton, List.not_mem_nil, or_false] at hd
      rcases hd with rfl | rfl | rfl <;> exact ⟨frame640x480, rfl, rfl⟩)).1

end discord.media.electron
